import Mathlib

/-!
# Verification of the live-meeting-subtitles streaming pipeline

Shallow embedding of the repository's core: the server-side audio
segmenter and result pipeline (`src/server/main.py`), the transcriber
wrapper (`src/server/transcriber.py`), the translators
(`src/server/translators/*.py`), the client reconnect loop
(`src/client/main.py`), and the resampler (`src/client/audio_capture.py`).

Conventions of the embedding:
* Audio samples are rationals (`ℚ`), idealising the float32 arithmetic of
  the source exactly; a block of audio is a `List ℚ`.
* Python comparisons of the form `np.sqrt(np.mean(a ** 2)) < t` are
  embedded by comparing squares: for `m ≥ 0` and `t > 0`,
  `Real.sqrt m < t ↔ m < t ^ 2`, so the mean of squares is compared with
  the squared threshold, keeping everything in `ℚ`.
* `np.mean` of an empty array is NaN, and `NaN < t` is `False`; the
  embedding makes those comparisons `False` on empty lists explicitly.
* External collaborators (the Whisper model behind `self._model`, the
  translation providers, `scipy.signal.resample_poly`) are parameters of
  the functions that call them.
-/

/-- Mean of squares of a list of samples: `np.mean(audio ** 2)`.
Defined as `0` on the empty list (where numpy yields NaN); every use
guards the empty case separately. -/
def meanSq (audio : List ℚ) : ℚ :=
  ((audio.map (fun x => x ^ 2)).sum) / (audio.length : ℚ)

/-- Embeds `self._sample_rate = 16000` in `TranscriptionServer.__init__`. -/
def sample_rate : ℚ := 16000

/-- Embeds `self._min_duration = 2.0` in `TranscriptionServer.__init__`. -/
def min_duration : ℚ := 2

/-- Embeds `self._max_duration = 10.0` in `TranscriptionServer.__init__`. -/
def max_duration : ℚ := 10

/-- The default `threshold = 0.01` argument of
`TranscriptionServer._is_silence` (never overridden by any caller). -/
def silence_threshold : ℚ := 1 / 100

/-- The "too quiet to bother" floor `0.005` in `Transcriber.transcribe`. -/
def quiet_threshold : ℚ := 1 / 200

/-- Embeds `TranscriptionServer._is_silence(audio)`:
`check_samples = min(len(audio), 4000)` and the RMS of
`audio[-check_samples:]` is compared with the threshold.  The comparison
`np.sqrt(np.mean(w ** 2)) < threshold` is embedded as
`meanSq w < threshold ^ 2` (squares of both sides); for an empty window
numpy's mean is NaN and the comparison is `False`. -/
def is_silence (audio : List ℚ) : Bool :=
  let check_samples := min audio.length 4000
  let window := audio.drop (audio.length - check_samples)
  decide (0 < window.length ∧ meanSq window < silence_threshold ^ 2)

/-- Embeds `TranscriptionResult` (the dataclass in `src/server/transcriber.py`),
without the `processing_time` wall-clock field (an external clock read). -/
structure TResult where
  text : String
  language : String
  confidence : ℚ
deriving Repr, DecidableEq

/-- The loaded-model state of a `Transcriber`: `self._model` is either
`None` or a loaded `WhisperModel` (opaque to the pipeline, so carried
as `Unit`). -/
structure TranscriberState where
  model : Option Unit
deriving Repr, DecidableEq

/-- The behaviour of the external Whisper model call
`self._model.transcribe(...)`: from the audio it yields the segment
texts, the detected language, and the language probability. -/
abbrev WhisperEngine : Type := List ℚ → List String × String × ℚ

/-- Embeds `Transcriber.load`: a no-op if `self._model is not None`, otherwise
constructs the model (`WhisperModel(...)`, an external effect carried
as the opaque value `()`). -/
def Transcriber.load (t : TranscriberState) : TranscriberState :=
  match t.model with
  | some _ => t
  | none => ⟨some ()⟩

/-- Embeds `Transcriber.transcribe(audio)`:
lazily loads the model if needed, returns `None` when the audio is too
quiet (`rms < 0.005`, embedded as `meanSq < quiet_threshold ^ 2`, and
`False` on empty audio where the mean is NaN), otherwise calls the model,
strips each segment text, returns `None` when no segments came back, and
otherwise joins the parts with spaces. -/
def Transcriber.transcribe (engine : WhisperEngine) (t : TranscriberState)
    (audio : List ℚ) : TranscriberState × Option TResult :=
  let t := if t.model.isNone then Transcriber.load t else t
  if 0 < audio.length ∧ meanSq audio < quiet_threshold ^ 2 then
    (t, none)
  else
    let out := engine audio
    let text_parts := out.1.map String.trim
    if text_parts.isEmpty then
      (t, none)
    else
      (t, some ⟨String.intercalate " " text_parts, out.2.1, out.2.2⟩)

/-- A translator instance (`self.translator` when not `None`): its
`translate(text, target_lang, source_lang)` method, which either returns
the translated text or raises (`Except.error`). -/
abbrev TranslatorFn : Type := String → String → String → Except String String

/-- Outbound text frames the server sends (`encode_message` payloads).
The `result` frame carries `time.time()` as `timestamp`, passed in as a
parameter `now` by the caller. -/
inductive OutFrame
  | pong
  | error (message : String)
  | result (original translated language : String) (confidence : ℚ)
      (timestamp : ℚ)
  | status (message : String) (model_loaded : Bool)
deriving Repr, DecidableEq

/-- The mutable state of `TranscriptionServer` that the handlers touch:
translation configuration, the translator instance, the audio buffer and
its cumulative duration, and the transcriber's model state. -/
structure ServerState where
  translation_provider : Option String
  translator : Option TranslatorFn
  target_language : String
  source_language : String
  audio_buffer : List (List ℚ)
  buffer_duration : ℚ
  transcriber : TranscriberState

/-- Embeds `TranscriptionServer._process_buffer`: if the buffer is empty, do
nothing; otherwise concatenate it (`np.concatenate`), clear the buffer
and duration, transcribe, and — unless transcription returned `None` —
translate (failure degrades to `""`) and emit one `result` frame.
The middle component records the `full_audio` value handed to the
transcriber when a flush happened. -/
def process_buffer (engine : WhisperEngine) (now : ℚ) (s : ServerState) :
    ServerState × Option (List ℚ) × List OutFrame :=
  if s.audio_buffer.isEmpty then (s, none, [])
  else
    let full_audio := s.audio_buffer.flatten
    let s := { s with audio_buffer := [], buffer_duration := 0 }
    let step := Transcriber.transcribe engine s.transcriber full_audio
    let s := { s with transcriber := step.1 }
    match step.2 with
    | none => (s, some full_audio, [])
    | some r =>
      let translated :=
        match s.translator with
        | none => ""
        | some tl =>
          if r.text = "" then ""
          else
            match tl r.text s.target_language r.language with
            | .ok t => t
            | .error _ => ""
      (s, some full_audio,
        [.result r.text translated r.language r.confidence now])

/-- Embeds `TranscriptionServer._handle_audio`: append the block, add its
duration, and process the buffer exactly when
`duration ≥ min ∧ (duration ≥ max ∨ is_silence block)`. -/
def handle_audio (engine : WhisperEngine) (now : ℚ) (s : ServerState)
    (audio : List ℚ) : ServerState × Option (List ℚ) × List OutFrame :=
  let s := { s with
    audio_buffer := s.audio_buffer ++ [audio],
    buffer_duration := s.buffer_duration + (audio.length : ℚ) / sample_rate }
  if s.buffer_duration ≥ min_duration ∧
      (s.buffer_duration ≥ max_duration ∨ is_silence audio = true) then
    process_buffer engine now s
  else
    (s, none, [])

/-- Feed a sequence of audio blocks through `_handle_audio`, collecting
the flushed segments in order. -/
def run_server (engine : WhisperEngine) (now : ℚ) (s : ServerState) :
    List (List ℚ) → ServerState × List (List ℚ)
  | [] => (s, [])
  | b :: bs =>
    let step := handle_audio engine now s b
    let rest := run_server engine now step.1 bs
    (rest.1, step.2.1.toList ++ rest.2)

/-- Sum of the durations of the buffered blocks. -/
def blocks_duration (blocks : List (List ℚ)) : ℚ :=
  (blocks.map (fun b => (b.length : ℚ) / sample_rate)).sum

/-- The optional fields of a parsed JSON command object, as read by
`data.get(...)` in `TranscriptionServer._handle_command`: `none` models
an absent key. -/
structure CommandFields where
  typ : Option String
  translation_provider : Option String
  target_language : Option String
  source_language : Option String

/-- An inbound text frame, as seen by `_handle_command` after
`decode_message` (= `json.loads`): either the parse raised
`json.JSONDecodeError` (with its message), or it produced a JSON object
with the optional fields the handler reads. -/
inductive TextMsg
  | malformed (err : String)
  | obj (fields : CommandFields)

/-- Outcome of handling one text frame: the new server state, the frames
sent back, and whether the per-client handler keeps running (it always
does: `_handle_command` returns normally on every modelled input, so the
`async for` loop in `_handle_client` proceeds to the next frame). -/
structure CommandResult where
  state : ServerState
  frames : List OutFrame
  keeps_running : Bool

/-- Embeds `TranscriptionServer._handle_command`: a failed JSON parse is
answered with an `error` frame; a `ping` object with a `pong`; a
`set_config` object updates `translation_provider` (switching the
translator via `create_translator` — an empty-string provider skips the
factory and clears the translator; a factory failure is answered with an
`error` frame and leaves the provider unchanged), then `target_language`,
then `source_language`, each only when the key is present; any other
object is ignored with no reply.  `create` stands for
`create_translator`, whose constructor outcomes depend on the
environment. -/
def handle_command (create : String → Except String (Option TranslatorFn))
    (s : ServerState) (m : TextMsg) : CommandResult :=
  match m with
  | .malformed e => ⟨s, [.error ("Invalid JSON: " ++ e)], true⟩
  | .obj f =>
    if f.typ = some "ping" then ⟨s, [.pong], true⟩
    else if f.typ = some "set_config" then
      let step :=
        match f.translation_provider with
        | none => (s, ([] : List OutFrame))
        | some p =>
          if some p = s.translation_provider then (s, [])
          else if p = "" then
            ({ s with translator := none, translation_provider := some p }, [])
          else
            match create p with
            | .ok t =>
              ({ s with translator := t, translation_provider := some p }, [])
            | .error e =>
              (s, [.error ("Failed to switch translator: " ++ e)])
      let s1 := step.1
      let s2 := match f.target_language with
        | none => s1
        | some v => { s1 with target_language := v }
      let s3 := match f.source_language with
        | none => s2
        | some v => { s2 with source_language := v }
      ⟨s3, step.2, true⟩
    else ⟨s, [], true⟩

/-- Embeds `create_translator` (in `src/server/translators/__init__.py`):
dispatch by provider name; the three concrete constructors can raise
(missing library, missing API key), so they are passed in as outcomes;
`"none"` or `None` yields no translator; an unknown name raises
`ValueError`. -/
def create_translator
    (mk_deepl mk_google mk_local : Except String TranslatorFn)
    (provider : Option String) : Except String (Option TranslatorFn) :=
  match provider with
  | some "deepl" => mk_deepl.map some
  | some "google" => mk_google.map some
  | some "local" => mk_local.map some
  | some "none" => .ok none
  | none => .ok none
  | some p => .error ("Unknown translation provider: " ++ p)

/-- Events observable in `VoiceClient._connect_with_retry`: one call of
`await self.connect()`, or one `await asyncio.sleep(seconds)`. -/
inductive RetryEvent
  | conn_attempt
  | sleep (seconds : ℕ)
deriving Repr, DecidableEq

/-- Embeds `VoiceClient.RECONNECT_DELAY = 3` (seconds between reconnect
attempts). -/
def RECONNECT_DELAY : ℕ := 3

/-- Outcome of `_connect_with_retry`: whether it returned `True`
(`self._connected` set by the successful `connect()`), how many times
`connect()` was attempted, and the trace of attempts and sleeps. -/
structure RetryResult where
  connected : Bool
  attempts : ℕ
  trace : List RetryEvent
deriving Repr, DecidableEq

/-- Embeds `VoiceClient._connect_with_retry`: the list gives the successive
results of `await self.connect()` for as long as `self._running` holds;
an exhausted list models `_running` turning false (the loop exits and
the method returns `False`).  Each failed attempt is followed by
`asyncio.sleep(RECONNECT_DELAY)` before the next; a successful attempt
returns `True` immediately. -/
def connect_with_retry : List Bool → RetryResult
  | [] => ⟨false, 0, []⟩
  | b :: rest =>
    if b then ⟨true, 1, [.conn_attempt]⟩
    else
      let r := connect_with_retry rest
      ⟨r.connected, r.attempts + 1,
        .conn_attempt :: .sleep RECONNECT_DELAY :: r.trace⟩

/-- Embeds `np.linspace(a, b, num)` with the default inclusive endpoint. -/
def linspace (a b : ℚ) (num : ℕ) : List ℚ :=
  if num = 0 then []
  else if num = 1 then [a]
  else (List.range num).map (fun k => a + (b - a) * k / ((num : ℚ) - 1))

/-- Embeds `np.interp(x, np.arange(len(fp)), fp)`: clamp below the first and
above the last sample point, linear interpolation in between.  numpy
raises when the sample-point array is empty; callers model that raise
explicitly before invoking this total function. -/
def np_interp (x : List ℚ) (fp : List ℚ) : List ℚ :=
  x.map (fun q =>
    if q ≤ 0 then fp.headD 0
    else if ((fp.length : ℚ) - 1) ≤ q then fp.getLastD 0
    else
      let i := ⌊q⌋.toNat
      fp.getD i 0 + (q - (i : ℚ)) * (fp.getD (i + 1) 0 - fp.getD i 0))

/-- Embeds `resample_audio` (in `src/client/audio_capture.py`).
Identity when the rates agree.  With scipy (`HAS_SCIPY`), reduce by the
gcd and call `scipy.signal.resample_poly(audio, up, down)` — an external
call, passed in as `poly`; scipy validates `up ≥ 1` and `down ≥ 1` and
raises otherwise (which happens exactly when a rate is `0`).  Without
scipy: `duration = len(audio) / orig_sr` raises `ZeroDivisionError` when
`orig_sr = 0`; `target_len = int(duration * target_sr)` is the floor;
`np.interp` raises `array of sample points is empty` when `audio` is
empty; otherwise linear interpolation over
`np.linspace(0, len(audio) - 1, target_len)`. -/
def resample_audio (has_scipy : Bool)
    (poly : List ℚ → ℕ → ℕ → List ℚ)
    (audio : List ℚ) (orig_sr target_sr : ℕ) : Except String (List ℚ) :=
  if orig_sr = target_sr then .ok audio
  else if has_scipy then
    let g := Nat.gcd orig_sr target_sr
    let up := target_sr / g
    let down := orig_sr / g
    if up = 0 ∨ down = 0 then
      .error "resample_poly: up and down must be positive"
    else .ok (poly audio up down)
  else if orig_sr = 0 then .error "ZeroDivisionError: division by zero"
  else if audio.isEmpty then .error "array of sample points is empty"
  else
    let target_len := audio.length * target_sr / orig_sr
    .ok (np_interp (linspace 0 ((audio.length : ℚ) - 1) target_len) audio)

/-- Embeds `LANG_MAP` in `src/server/translators/google.py`. -/
def LANG_MAP : List (String × String) :=
  [("EN", "en"), ("RU", "ru"), ("DE", "de"), ("FR", "fr"), ("ES", "es"),
   ("IT", "it"), ("PT", "pt"), ("JA", "ja"), ("ZH", "zh-CN"), ("KO", "ko"),
   ("UK", "uk"), ("PL", "pl")]

/-- Embeds `GoogleTranslator.translate`: empty (whitespace-only) text returns
`""` before any provider work; otherwise map language codes and call the
provider (`DeepGoogleTranslator(source, target).translate(text)`,
passed in as `provider source target text`), wrapping any exception in a
`TranslationError`.  The boolean records whether the provider was
invoked. -/
def GoogleTranslator.translate
    (provider : String → String → String → Except String String)
    (text target_lang : String) (source_lang : Option String) :
    Except String String × Bool :=
  if text.trim = "" then (.ok "", false)
  else
    let target := (LANG_MAP.lookup target_lang.toUpper).getD
      target_lang.toLower
    let source := match source_lang with
      | some sl => (LANG_MAP.lookup sl.toUpper).getD sl.toLower
      | none => "auto"
    match provider source target text with
    | .ok t => (.ok t, true)
    | .error e => (.error ("Google Translate error: " ++ e), true)

/-- Embeds `DeepLTranslator.translate`: empty (whitespace-only) text returns
`""` before any provider work; otherwise call
`self._client.translate_text(text, target_lang.upper(), source?)`
(passed in as `client`), wrapping `deepl.DeepLException` in a
`TranslationError`.  The boolean records whether the client was
invoked. -/
def DeepLTranslator.translate
    (client : String → String → Option String → Except String String)
    (text target_lang : String) (source_lang : Option String) :
    Except String String × Bool :=
  if text.trim = "" then (.ok "", false)
  else
    match client text target_lang.toUpper
        (source_lang.map String.toUpper) with
    | .ok t => (.ok t, true)
    | .error e => (.error ("DeepL error: " ++ e), true)

/-- Embeds `NLLB_CODES` in `src/server/translators/local.py`. -/
def NLLB_CODES : List (String × String) :=
  [("EN", "eng_Latn"), ("RU", "rus_Cyrl"), ("DE", "deu_Latn"),
   ("FR", "fra_Latn"), ("ES", "spa_Latn"), ("IT", "ita_Latn"),
   ("PT", "por_Latn"), ("JA", "jpn_Jpan"), ("ZH", "zho_Hans"),
   ("KO", "kor_Hang"), ("UK", "ukr_Cyrl"), ("PL", "pol_Latn")]

/-- The lazily-loaded NLLB model of a `LocalTranslator`
(`self._model`, opaque to the pipeline). -/
structure LocalTranslatorState where
  model : Option Unit
deriving Repr, DecidableEq

/-- Embeds `LocalTranslator.translate`: empty (whitespace-only) text returns
`""` before loading anything; otherwise `_load()` the model lazily, map
the NLLB codes (unknown target raises `TranslationError`; absent source
defaults to `"eng_Latn"`), and run the model (passed in as
`model text target_code source_code`), wrapping any exception in a
`TranslationError`.  The boolean records whether the model was run. -/
def LocalTranslator.translate
    (model : String → String → Option String → Except String String)
    (st : LocalTranslatorState)
    (text target_lang : String) (source_lang : Option String) :
    LocalTranslatorState × Except String String × Bool :=
  if text.trim = "" then (st, .ok "", false)
  else
    let st := if st.model.isNone then ⟨some ()⟩ else st
    let target_code := NLLB_CODES.lookup target_lang.toUpper
    let source_code := match source_lang with
      | some sl => NLLB_CODES.lookup sl.toUpper
      | none => some "eng_Latn"
    match target_code with
    | none =>
      (st, .error ("Unsupported target language: " ++ target_lang), false)
    | some tc =>
      match model text tc source_code with
      | .ok t => (st, .ok t, true)
      | .error e =>
        (st, .error ("Local translation error: " ++ e), true)

/-- The buffer-accumulation step at the top of `_handle_audio`: append
the block, add its duration. -/
def ingest (s : ServerState) (audio : List ℚ) : ServerState :=
  { s with
    audio_buffer := s.audio_buffer ++ [audio],
    buffer_duration := s.buffer_duration + (audio.length : ℚ) / sample_rate }

/-- The `should_process` condition computed by `_handle_audio`, on the
post-ingest cumulative duration. -/
def should_process (s : ServerState) (audio : List ℚ) : Prop :=
  (ingest s audio).buffer_duration ≥ min_duration ∧
    ((ingest s audio).buffer_duration ≥ max_duration ∨
      is_silence audio = true)

instance (s : ServerState) (audio : List ℚ) :
    Decidable (should_process s audio) :=
  inferInstanceAs (Decidable (_ ≥ _ ∧ (_ ≥ _ ∨ _ = _)))

/-! ## Helper lemmas -/

/-- Durations add over appended buffers. -/
theorem blocks_duration_append (a b : List (List ℚ)) :
    blocks_duration (a ++ b) = blocks_duration a + blocks_duration b := by
  simp [blocks_duration]

/-- Every block duration is nonnegative, so the buffered total is. -/
theorem blocks_duration_nonneg (a : List (List ℚ)) :
    0 ≤ blocks_duration a := by
  induction a with
  | nil => simp [blocks_duration]
  | cons b bs ih =>
    have hb : (0 : ℚ) ≤ (b.length : ℚ) / sample_rate := by
      apply div_nonneg (Nat.cast_nonneg _)
      norm_num [sample_rate]
    calc (0 : ℚ) ≤ (b.length : ℚ) / sample_rate + blocks_duration bs := by
          exact add_nonneg hb ih
      _ = blocks_duration (b :: bs) := by simp [blocks_duration]

/--
Processing a nonempty buffer always flushes it whole: the produced
segment is the concatenation of the buffered blocks in order, the buffer
and its duration are reset, and the configuration is untouched.
-/
theorem process_buffer_flush (engine : WhisperEngine) (now : ℚ)
    (s : ServerState) (h : s.audio_buffer ≠ []) :
    (process_buffer engine now s).2.1 = some s.audio_buffer.flatten ∧
    (process_buffer engine now s).1.audio_buffer = [] ∧
    (process_buffer engine now s).1.buffer_duration = 0 ∧
    (process_buffer engine now s).1.translation_provider =
      s.translation_provider ∧
    (process_buffer engine now s).1.translator = s.translator ∧
    (process_buffer engine now s).1.target_language = s.target_language ∧
    (process_buffer engine now s).1.source_language = s.source_language := by
  have hne : s.audio_buffer.isEmpty = false := by
    simpa [List.isEmpty_iff] using h
  unfold process_buffer
  rw [hne]
  simp only [Bool.false_eq_true, if_false]
  cases (Transcriber.transcribe engine s.transcriber
      s.audio_buffer.flatten).2 with
  | none => simp
  | some r => simp
/-- Unfolding `handle_audio` through `ingest` and `should_process`. -/
theorem handle_audio_eq (engine : WhisperEngine) (now : ℚ)
    (s : ServerState) (audio : List ℚ) :
    handle_audio engine now s audio =
      if should_process s audio then
        process_buffer engine now (ingest s audio)
      else (ingest s audio, none, []) := by
  unfold handle_audio ingest should_process
  rfl

/-- Ingesting a block below the flush condition just accumulates it. -/
theorem handle_audio_no_flush (engine : WhisperEngine) (now : ℚ)
    (s : ServerState) (audio : List ℚ) (h : ¬ should_process s audio) :
    handle_audio engine now s audio = (ingest s audio, none, []) := by
  rw [handle_audio_eq, if_neg h]

/-- Ingesting a block that satisfies the flush condition processes the
whole accumulated buffer. -/
theorem handle_audio_flush (engine : WhisperEngine) (now : ℚ)
    (s : ServerState) (audio : List ℚ) (h : should_process s audio) :
    handle_audio engine now s audio =
      process_buffer engine now (ingest s audio) := by
  rw [handle_audio_eq, if_pos h]

/-- The post-ingest buffer is never empty. -/
theorem ingest_buffer_ne_nil (s : ServerState) (audio : List ℚ) :
    (ingest s audio).audio_buffer ≠ [] := by
  simp [ingest]

/-- One ingest step preserves every sample: the flushed segment (if any)
followed by what remains buffered is the old buffer followed by the new
block. -/
theorem handle_audio_conservation (engine : WhisperEngine) (now : ℚ)
    (s : ServerState) (audio : List ℚ) :
    ((handle_audio engine now s audio).2.1.getD []) ++
        (handle_audio engine now s audio).1.audio_buffer.flatten =
      s.audio_buffer.flatten ++ audio := by
  by_cases h : should_process s audio
  · rw [handle_audio_flush engine now s audio h]
    obtain ⟨h1, h2, _⟩ :=
      process_buffer_flush engine now _ (ingest_buffer_ne_nil s audio)
    rw [h1, h2]
    simp [ingest]
  · rw [handle_audio_no_flush engine now s audio h]
    simp [ingest]

/-- Running the server loses and duplicates no sample: the flushed
segments followed by the final buffer hold exactly the initially
buffered samples followed by every ingested sample, in order. -/
theorem run_server_conservation (engine : WhisperEngine) (now : ℚ) :
    ∀ (bs : List (List ℚ)) (s : ServerState),
      (run_server engine now s bs).2.flatten ++
          (run_server engine now s bs).1.audio_buffer.flatten =
        s.audio_buffer.flatten ++ bs.flatten := by
  intro bs
  induction bs with
  | nil => intro s; simp [run_server]
  | cons b rest ih =>
    intro s
    have hstep := handle_audio_conservation engine now s b
    unfold run_server
    cases hseg : (handle_audio engine now s b).2.1 with
    | none =>
      rw [hseg] at hstep
      simp only [Option.getD_none, List.nil_append] at hstep
      simp only [hseg, Option.toList_none, List.nil_append]
      rw [ih, hstep]
      simp
    | some seg =>
      rw [hseg] at hstep
      simp only [Option.getD_some] at hstep
      simp only [hseg, Option.toList_some, List.cons_append,
        List.nil_append, List.flatten_cons, List.append_assoc]
      rw [ih, ← List.append_assoc, hstep, List.append_assoc]

/-- One ingest step preserves the duration invariant: the recorded
cumulative duration stays the sum of the buffered block durations. -/
theorem handle_audio_duration_invariant (engine : WhisperEngine) (now : ℚ)
    (s : ServerState) (audio : List ℚ)
    (h : s.buffer_duration = blocks_duration s.audio_buffer) :
    (handle_audio engine now s audio).1.buffer_duration =
      blocks_duration (handle_audio engine now s audio).1.audio_buffer := by
  by_cases hc : should_process s audio
  · rw [handle_audio_flush engine now s audio hc]
    obtain ⟨_, h2, h3, _⟩ :=
      process_buffer_flush engine now _ (ingest_buffer_ne_nil s audio)
    rw [h2, h3]
    simp [blocks_duration]
  · rw [handle_audio_no_flush engine now s audio hc]
    simp only [ingest]
    rw [h, blocks_duration_append]
    simp [blocks_duration]

/-- If the total ingested duration stays below the floor, the flush
condition is never satisfied and no segment is ever produced. -/
theorem run_server_no_flush_below_min (engine : WhisperEngine) (now : ℚ) :
    ∀ (bs : List (List ℚ)) (s : ServerState),
      s.buffer_duration = blocks_duration s.audio_buffer →
      blocks_duration s.audio_buffer + blocks_duration bs < min_duration →
      (run_server engine now s bs).2 = [] := by
  intro bs
  induction bs with
  | nil => intro s _ _; simp [run_server]
  | cons b rest ih =>
    intro s hinv hlt
    have hsplit : blocks_duration (b :: rest) =
        (b.length : ℚ) / sample_rate + blocks_duration rest := by
      simp [blocks_duration]
    have hrest : 0 ≤ blocks_duration rest := blocks_duration_nonneg rest
    have hdur : (ingest s b).buffer_duration =
        blocks_duration (ingest s b).audio_buffer := by
      simp only [ingest, hinv, blocks_duration_append]
      simp [blocks_duration]
    have hlt2 : (ingest s b).buffer_duration < min_duration := by
      have : s.buffer_duration + (b.length : ℚ) / sample_rate <
          min_duration := by
        rw [hinv]
        rw [hsplit] at hlt
        linarith
      simpa [ingest] using this
    have hnp : ¬ should_process s b := fun hp =>
      absurd hp.1 (not_le.mpr hlt2)
    unfold run_server
    rw [handle_audio_no_flush engine now s b hnp]
    simp only [Option.toList_none, List.nil_append]
    apply ih
    · exact hdur
    · rw [← hdur]
      have h3 : (ingest s b).buffer_duration =
          blocks_duration s.audio_buffer + (b.length : ℚ) / sample_rate := by
        simp [ingest, hinv]
      rw [h3]
      rw [hsplit] at hlt
      linarith

/-- A segment below the "too quiet" floor short-circuits `transcribe`
before the model is consulted. -/
theorem transcribe_quiet (engine : WhisperEngine) (t : TranscriberState)
    (audio : List ℚ) (h1 : 0 < audio.length)
    (h2 : meanSq audio < quiet_threshold ^ 2) :
    Transcriber.transcribe engine t audio =
      (if t.model.isNone then Transcriber.load t else t, none) := by
  unfold Transcriber.transcribe
  rw [if_pos ⟨h1, h2⟩]

/-! ## Claim theorems -/

/-- Claim C1: ingesting a block appends it to the buffer and updates the
cumulative duration, and a flush is triggered exactly when the updated
cumulative duration has reached `min_duration` (2.0 s) and either it has
reached `max_duration` (10.0 s) or the trailing window of the most
recent block is silent (RMS below `silence_threshold` = 0.01); a block
sequence whose total duration stays below `min_duration` never flushes,
regardless of silence. -/
theorem segmenter_flush_policy (engine : WhisperEngine) (now : ℚ) :
    (∀ (s : ServerState) (audio : List ℚ),
      (handle_audio engine now s audio).2.1.isSome = true ↔
        (s.buffer_duration + (audio.length : ℚ) / sample_rate ≥
            min_duration ∧
          (s.buffer_duration + (audio.length : ℚ) / sample_rate ≥
              max_duration ∨
            is_silence audio = true))) ∧
    (∀ (s : ServerState) (audio : List ℚ), ¬ should_process s audio →
      (handle_audio engine now s audio).1.audio_buffer =
          s.audio_buffer ++ [audio] ∧
        (handle_audio engine now s audio).1.buffer_duration =
          s.buffer_duration + (audio.length : ℚ) / sample_rate) ∧
    (∀ (bs : List (List ℚ)) (s : ServerState),
      s.audio_buffer = [] → s.buffer_duration = 0 →
      blocks_duration bs < min_duration →
      (run_server engine now s bs).2 = []) ∧
    min_duration = 2 ∧ max_duration = 10 ∧ silence_threshold = 1 / 100 := by
  refine ⟨?_, ?_, ?_, rfl, rfl, rfl⟩
  · intro s audio
    by_cases h : should_process s audio
    · rw [handle_audio_flush engine now s audio h]
      rw [(process_buffer_flush engine now _
        (ingest_buffer_ne_nil s audio)).1]
      simp only [Option.isSome_some, true_iff]
      exact h
    · rw [handle_audio_no_flush engine now s audio h]
      simp only [Option.isSome_none, Bool.false_eq_true, false_iff]
      exact h
  · intro s audio h
    rw [handle_audio_no_flush engine now s audio h]
    exact ⟨rfl, rfl⟩
  · intro bs s hbuf hdur hlt
    apply run_server_no_flush_below_min engine now bs s
    · rw [hdur, hbuf]
      simp [blocks_duration]
    · rw [hbuf]
      simpa [blocks_duration] using hlt

/-- Witness for C1 at concrete inputs: a silent block on top of a 2 s
buffer flushes; a lone 1-sample block neither satisfies the condition
nor flushes but is accumulated; a run totalling 1/16000 s never
flushes. -/
theorem segmenter_flush_policy_witness :
    ((handle_audio (fun _ => ([], "en", 0)) 0
        ⟨some "google", none, "RU", "en", [[1]], 2, ⟨some ()⟩⟩
        [0]).2.1.isSome = true) ∧
    (¬ should_process ⟨some "google", none, "RU", "en", [], 0, ⟨some ()⟩⟩
        [1]) ∧
    ((handle_audio (fun _ => ([], "en", 0)) 0
        ⟨some "google", none, "RU", "en", [], 0, ⟨some ()⟩⟩
        [1]).1.audio_buffer = [[1]]) ∧
    ((run_server (fun _ => ([], "en", 0)) 0
        ⟨some "google", none, "RU", "en", [], 0, ⟨some ()⟩⟩ [[0]]).2 = []) :=
  ⟨((segmenter_flush_policy (fun _ => ([], "en", 0)) 0).1
      ⟨some "google", none, "RU", "en", [[1]], 2, ⟨some ()⟩⟩ [0]).mpr
    ⟨by norm_num [min_duration, sample_rate],
     Or.inr (by norm_num [is_silence, meanSq, silence_threshold])⟩,
   by norm_num [should_process, ingest, is_silence, meanSq,
     silence_threshold, min_duration, max_duration, sample_rate],
   (((segmenter_flush_policy (fun _ => ([], "en", 0)) 0).2.1
      ⟨some "google", none, "RU", "en", [], 0, ⟨some ()⟩⟩ [1])
    (by norm_num [should_process, ingest, is_silence, meanSq,
      silence_threshold, min_duration, max_duration, sample_rate])).1,
   (segmenter_flush_policy (fun _ => ([], "en", 0)) 0).2.2.1 [[0]]
    ⟨some "google", none, "RU", "en", [], 0, ⟨some ()⟩⟩ rfl rfl
    (by norm_num [blocks_duration, min_duration, sample_rate])⟩

/-- Claim C2: whenever a flush occurs the produced segment is exactly the
concatenation, in ingest order, of every sample ingested since the
previous flush (no sample lost, none duplicated, no block split across
segments), the buffer and its cumulative duration are reset to
empty/zero in the same step, and the recorded cumulative duration always
equals the sum of the buffered blocks' durations. -/
theorem flush_atomicity_conservation (engine : WhisperEngine) (now : ℚ) :
    (∀ (s : ServerState) (audio : List ℚ) (seg : List ℚ),
      (handle_audio engine now s audio).2.1 = some seg →
      seg = (s.audio_buffer ++ [audio]).flatten ∧
        (handle_audio engine now s audio).1.audio_buffer = [] ∧
        (handle_audio engine now s audio).1.buffer_duration = 0) ∧
    (∀ (bs : List (List ℚ)) (s : ServerState), s.audio_buffer = [] →
      (run_server engine now s bs).2.flatten ++
          (run_server engine now s bs).1.audio_buffer.flatten =
        bs.flatten) ∧
    (∀ (s : ServerState) (audio : List ℚ),
      s.buffer_duration = blocks_duration s.audio_buffer →
      (handle_audio engine now s audio).1.buffer_duration =
        blocks_duration
          (handle_audio engine now s audio).1.audio_buffer) := by
  refine ⟨?_, ?_, ?_⟩
  · intro s audio seg h
    by_cases hc : should_process s audio
    · rw [handle_audio_flush engine now s audio hc] at h ⊢
      obtain ⟨h1, h2, h3, _⟩ :=
        process_buffer_flush engine now _ (ingest_buffer_ne_nil s audio)
      refine ⟨?_, h2, h3⟩
      exact (Option.some.inj (h1.symm.trans h)).symm
    · rw [handle_audio_no_flush engine now s audio hc] at h
      simp at h
  · intro bs s hbuf
    have hcons := run_server_conservation engine now bs s
    rw [hbuf] at hcons
    simpa using hcons
  · exact fun s audio h =>
      handle_audio_duration_invariant engine now s audio h

/-- Witness for C2: flushing a buffer `[[1]]` on the silent block `[0]`
yields exactly the segment `[1, 0]` and a reset buffer; a two-block run
conserves the samples; the duration invariant holds after one step. -/
theorem flush_atomicity_conservation_witness :
    (([1, 0] : List ℚ) =
        (([[1]] : List (List ℚ)) ++ [[0]]).flatten ∧
      (handle_audio (fun _ => ([], "en", 0)) 0
          ⟨some "google", none, "RU", "en", [[1]], 2, ⟨some ()⟩⟩
          [0]).1.audio_buffer = [] ∧
      (handle_audio (fun _ => ([], "en", 0)) 0
          ⟨some "google", none, "RU", "en", [[1]], 2, ⟨some ()⟩⟩
          [0]).1.buffer_duration = 0) ∧
    ((run_server (fun _ => ([], "en", 0)) 0
          ⟨some "google", none, "RU", "en", [], 0, ⟨some ()⟩⟩
          [[1], [0]]).2.flatten ++
        (run_server (fun _ => ([], "en", 0)) 0
          ⟨some "google", none, "RU", "en", [], 0, ⟨some ()⟩⟩
          [[1], [0]]).1.audio_buffer.flatten = [1, 0]) ∧
    ((handle_audio (fun _ => ([], "en", 0)) 0
        ⟨some "google", none, "RU", "en", [], 0, ⟨some ()⟩⟩
        [3]).1.buffer_duration =
      blocks_duration ((handle_audio (fun _ => ([], "en", 0)) 0
        ⟨some "google", none, "RU", "en", [], 0, ⟨some ()⟩⟩
        [3]).1.audio_buffer)) :=
  ⟨(flush_atomicity_conservation (fun _ => ([], "en", 0)) 0).1
      ⟨some "google", none, "RU", "en", [[1]], 2, ⟨some ()⟩⟩ [0] [1, 0]
      (by
        rw [handle_audio_flush _ _ _ _
          ⟨by norm_num [ingest, min_duration, sample_rate],
           Or.inr (by norm_num [is_silence, meanSq, silence_threshold])⟩]
        exact (process_buffer_flush _ _ _
          (ingest_buffer_ne_nil _ _)).1),
   (flush_atomicity_conservation (fun _ => ([], "en", 0)) 0).2.1
      [[1], [0]] ⟨some "google", none, "RU", "en", [], 0, ⟨some ()⟩⟩ rfl,
   (flush_atomicity_conservation (fun _ => ([], "en", 0)) 0).2.2
      ⟨some "google", none, "RU", "en", [], 0, ⟨some ()⟩⟩ [3]
      (by simp [blocks_duration])⟩

/-- Claim C3: a flushed segment whose overall RMS is below the "too
quiet" threshold 0.005 produces no result — no frame is sent and the
transcription engine behind the port is never consulted — while quiet
blocks still accumulate into the buffer like any other block (the
ingest step is unconditional). -/
theorem quiet_segment_discarded (now : ℚ) :
    (∀ (engine : WhisperEngine) (s : ServerState),
      s.audio_buffer ≠ [] →
      0 < s.audio_buffer.flatten.length →
      meanSq s.audio_buffer.flatten < quiet_threshold ^ 2 →
      ((process_buffer engine now s).2.2 = [] ∧
        ∀ engine2 : WhisperEngine,
          process_buffer engine now s = process_buffer engine2 now s)) ∧
    (∀ (engine : WhisperEngine) (s : ServerState) (audio : List ℚ),
      ((handle_audio engine now s audio).2.1.getD []) ++
          (handle_audio engine now s audio).1.audio_buffer.flatten =
        s.audio_buffer.flatten ++ audio) := by
  constructor
  · intro engine s hne h1 h2
    have hne2 : s.audio_buffer.isEmpty = false := by
      simpa [List.isEmpty_iff] using hne
    constructor
    · simp only [process_buffer, hne2, Bool.false_eq_true, if_false]
      rw [transcribe_quiet engine _ _ h1 h2]
    · intro engine2
      simp only [process_buffer, hne2, Bool.false_eq_true, if_false]
      rw [transcribe_quiet engine _ _ h1 h2,
        transcribe_quiet engine2 _ _ h1 h2]
  · exact fun engine s audio =>
      handle_audio_conservation engine now s audio

/-- Witness for C3: flushing the all-quiet buffer `[[0]]` sends no frame
and the output does not depend on the engine; a quiet block is
accumulated like any other. -/
theorem quiet_segment_discarded_witness :
    ((process_buffer (fun _ => (["a"], "en", 1)) 0
        ⟨some "google", none, "RU", "en", [[0]], 10, ⟨some ()⟩⟩).2.2 =
      []) ∧
    (process_buffer (fun _ => (["a"], "en", 1)) 0
        ⟨some "google", none, "RU", "en", [[0]], 10, ⟨some ()⟩⟩ =
      process_buffer (fun _ => (["b"], "ru", 0)) 0
        ⟨some "google", none, "RU", "en", [[0]], 10, ⟨some ()⟩⟩) ∧
    (((handle_audio (fun _ => (["a"], "en", 1)) 0
        ⟨some "google", none, "RU", "en", [], 0, ⟨some ()⟩⟩
        [0]).2.1.getD []) ++
      (handle_audio (fun _ => (["a"], "en", 1)) 0
        ⟨some "google", none, "RU", "en", [], 0, ⟨some ()⟩⟩
        [0]).1.audio_buffer.flatten = [0]) :=
  ⟨((quiet_segment_discarded 0).1 (fun _ => (["a"], "en", 1))
      ⟨some "google", none, "RU", "en", [[0]], 10, ⟨some ()⟩⟩
      (by simp) (by simp)
      (by norm_num [meanSq, quiet_threshold])).1,
   ((quiet_segment_discarded 0).1 (fun _ => (["a"], "en", 1))
      ⟨some "google", none, "RU", "en", [[0]], 10, ⟨some ()⟩⟩
      (by simp) (by simp)
      (by norm_num [meanSq, quiet_threshold])).2
     (fun _ => (["b"], "ru", 0)),
   (quiet_segment_discarded 0).2 (fun _ => (["a"], "en", 1))
      ⟨some "google", none, "RU", "en", [], 0, ⟨some ()⟩⟩ [0]⟩

/-- Claim C5: if the translator's translate call raises for a
transcribed segment, the result frame is still sent with the original
transcription intact and the translated field equal to the empty string;
the result is never dropped because translation failed. -/
theorem translation_failure_recovered (engine : WhisperEngine) (now : ℚ)
    (s : ServerState) (tl : TranslatorFn) (r : TResult) (msg : String)
    (hne : s.audio_buffer ≠ [])
    (htl : s.translator = some tl)
    (htr : (Transcriber.transcribe engine s.transcriber
        s.audio_buffer.flatten).2 = some r)
    (herr : tl r.text s.target_language r.language = Except.error msg) :
    (process_buffer engine now s).2.2 =
      [OutFrame.result r.text "" r.language r.confidence now] := by
  have hne2 : s.audio_buffer.isEmpty = false := by
    simpa [List.isEmpty_iff] using hne
  simp only [process_buffer, hne2, Bool.false_eq_true, if_false, htr, htl,
    herr]
  by_cases htext : r.text = "" <;> simp [htext, herr]

/-- Witness for C5: a failing translator (always raising) still lets the
transcription through, with an empty translated field. -/
theorem translation_failure_recovered_witness :
    (process_buffer (fun _ => (["hi"], "en", 1)) 0
        ⟨some "google", some (fun _ _ _ => Except.error "boom"),
          "RU", "en", [[1]], 2, ⟨some ()⟩⟩).2.2 =
      [OutFrame.result
        (String.intercalate " " (List.map String.trim ["hi"])) "" "en" 1
        0] :=
  translation_failure_recovered (fun _ => (["hi"], "en", 1)) 0
    ⟨some "google", some (fun _ _ _ => Except.error "boom"),
      "RU", "en", [[1]], 2, ⟨some ()⟩⟩
    (fun _ _ _ => Except.error "boom")
    ⟨String.intercalate " " (List.map String.trim ["hi"]), "en", 1⟩
    "boom"
    (by simp)
    rfl
    (by
      unfold Transcriber.transcribe
      rw [if_neg (by norm_num [meanSq, quiet_threshold])]
      rfl)
    rfl

/-- Python's `"".strip()` is empty: the guard of every translator's
empty-input short-circuit. -/
theorem trim_empty : "".trim = "" := by
  unfold String.trim Substring.trim
  simp only [String.toSubstring]
  rw [Substring.takeWhileAux.eq_def]
  norm_num [String.endPos, String.utf8ByteSize, String.utf8ByteSize.go]
  rw [Substring.takeRightWhileAux.eq_def]
  norm_num [String.endPos, String.utf8ByteSize, String.utf8ByteSize.go,
    Substring.toString, Substring.extract, String.extract]

/-- Claim C4 counterexample: a well-formed JSON object whose `type`
(`"bogus"`) is not a recognized message type gets NO reply at all —
no `error` frame is sent — refuting the claim that every unsupported or
malformed text frame is answered with an `error` frame. -/
theorem unsupported_frame_no_reply_counterexample :
    (handle_command (fun _ => Except.error "no provider")
        ⟨some "google", none, "RU", "en", [], 0, ⟨some ()⟩⟩
        (TextMsg.obj ⟨some "bogus", none, none, none⟩)).frames = [] ∧
    (handle_command (fun _ => Except.error "no provider")
        ⟨some "google", none, "RU", "en", [], 0, ⟨some ()⟩⟩
        (TextMsg.obj ⟨some "bogus", none, none, none⟩)).keeps_running =
      true := by
  constructor <;> rfl

/-- Claim C4 (amended): a malformed text frame (invalid JSON) is answered
with an `error` frame and the connection is not closed; a well-formed
JSON object whose `type` is not a recognized message type is silently
ignored — no reply of any kind — and the connection is likewise not
closed. -/
theorem malformed_frame_error_reply
    (create : String → Except String (Option TranslatorFn))
    (s : ServerState) :
    (∀ e : String,
      handle_command create s (TextMsg.malformed e) =
        ⟨s, [OutFrame.error ("Invalid JSON: " ++ e)], true⟩) ∧
    (∀ f : CommandFields,
      f.typ ≠ some "ping" → f.typ ≠ some "set_config" →
      handle_command create s (TextMsg.obj f) = ⟨s, [], true⟩) := by
  constructor
  · intro e
    rfl
  · intro f h1 h2
    simp only [handle_command]
    rw [if_neg h1, if_neg h2]

/-- Witness for the amended C4: the malformed frame and the
`"bogus"`-typed frame at concrete inputs. -/
theorem malformed_frame_error_reply_witness :
    (handle_command (fun _ => Except.error "no provider")
        ⟨some "google", none, "RU", "en", [], 0, ⟨some ()⟩⟩
        (TextMsg.malformed "expecting value") =
      ⟨⟨some "google", none, "RU", "en", [], 0, ⟨some ()⟩⟩,
        [OutFrame.error "Invalid JSON: expecting value"], true⟩) ∧
    (handle_command (fun _ => Except.error "no provider")
        ⟨some "google", none, "RU", "en", [], 0, ⟨some ()⟩⟩
        (TextMsg.obj ⟨some "status", none, none, none⟩) =
      ⟨⟨some "google", none, "RU", "en", [], 0, ⟨some ()⟩⟩, [], true⟩) :=
  ⟨(malformed_frame_error_reply (fun _ => Except.error "no provider")
      ⟨some "google", none, "RU", "en", [], 0, ⟨some ()⟩⟩).1
      "expecting value",
   (malformed_frame_error_reply (fun _ => Except.error "no provider")
      ⟨some "google", none, "RU", "en", [], 0, ⟨some ()⟩⟩).2
      ⟨some "status", none, none, none⟩ (by decide) (by decide)⟩

/-- Claim C6: if `connect()` fails N times and then succeeds while the
client keeps running, `_connect_with_retry` returns `True` (connected)
after exactly N+1 connect attempts, and every failed attempt is followed
by a fixed `RECONNECT_DELAY` = 3 second sleep — not an exponential
backoff. -/
theorem reconnect_n_failures_then_success (N : ℕ) :
    connect_with_retry (List.replicate N false ++ [true]) =
      ⟨true, N + 1,
        (List.replicate N
            [RetryEvent.conn_attempt,
             RetryEvent.sleep RECONNECT_DELAY]).flatten ++
          [RetryEvent.conn_attempt]⟩ ∧
    RECONNECT_DELAY = 3 := by
  refine ⟨?_, rfl⟩
  induction N with
  | zero => rfl
  | succ n ih =>
    rw [List.replicate_succ, List.cons_append]
    rw [List.replicate_succ, List.flatten_cons]
    unfold connect_with_retry
    rw [ih]
    rfl

/-- Claim C8: every translator implementation (google, deepl, local)
returns `""` for empty input text without invoking the underlying
provider (the invocation flag is `false` and, for the local translator,
the model is not even loaded). -/
theorem translate_empty_short_circuit :
    (∀ (provider : String → String → String → Except String String)
        (target_lang : String) (source_lang : Option String),
      GoogleTranslator.translate provider "" target_lang source_lang =
        (Except.ok "", false)) ∧
    (∀ (client : String → String → Option String → Except String String)
        (target_lang : String) (source_lang : Option String),
      DeepLTranslator.translate client "" target_lang source_lang =
        (Except.ok "", false)) ∧
    (∀ (model : String → String → Option String → Except String String)
        (st : LocalTranslatorState)
        (target_lang : String) (source_lang : Option String),
      LocalTranslator.translate model st "" target_lang source_lang =
        (st, Except.ok "", false)) := by
  refine ⟨fun provider t sl => ?_, fun client t sl => ?_,
    fun model st t sl => ?_⟩
  · unfold GoogleTranslator.translate
    rw [if_pos trim_empty]
  · unfold DeepLTranslator.translate
    rw [if_pos trim_empty]
  · unfold LocalTranslator.translate
    rw [if_pos trim_empty]

/-- Claim C10: `transcribe` does not require a prior completed `load` —
on an unloaded transcriber it lazily loads the model first and behaves
exactly as after an explicit `load`, the state after any `transcribe` has
the model loaded, and `load` is a no-op when the model is already
loaded. -/
theorem transcribe_lazy_load (engine : WhisperEngine)
    (t : TranscriberState) (audio : List ℚ) :
    (t.model = none →
      Transcriber.transcribe engine t audio =
        Transcriber.transcribe engine (Transcriber.load t) audio) ∧
    Transcriber.load (Transcriber.load t) = Transcriber.load t ∧
    ((Transcriber.transcribe engine t audio).1).model = some () := by
  obtain ⟨m⟩ := t
  cases m with
  | none =>
    refine ⟨fun _ => rfl, rfl, ?_⟩
    unfold Transcriber.transcribe
    repeat' split
    all_goals first | rfl | simp_all
    all_goals split <;> rfl
  | some u =>
    cases u
    refine ⟨fun h => by simp at h, rfl, ?_⟩
    unfold Transcriber.transcribe
    repeat' split
    all_goals first | rfl | simp_all
    all_goals split <;> rfl

/-- Witness for C10: transcribing on an unloaded transcriber equals
transcribing after an explicit load, and leaves the model loaded. -/
theorem transcribe_lazy_load_witness :
    (Transcriber.transcribe (fun _ => (["hi"], "en", 1)) ⟨none⟩ [1] =
      Transcriber.transcribe (fun _ => (["hi"], "en", 1))
        (Transcriber.load ⟨none⟩) [1]) ∧
    Transcriber.load (Transcriber.load ⟨none⟩) = Transcriber.load ⟨none⟩ ∧
    ((Transcriber.transcribe (fun _ => (["hi"], "en", 1)) ⟨none⟩
        [1]).1).model = some () :=
  ⟨(transcribe_lazy_load (fun _ => (["hi"], "en", 1)) ⟨none⟩ [1]).1 rfl,
   (transcribe_lazy_load (fun _ => (["hi"], "en", 1)) ⟨none⟩ [1]).2.1,
   (transcribe_lazy_load (fun _ => (["hi"], "en", 1)) ⟨none⟩ [1]).2.2⟩

/-- Claim C7 counterexample: `resample_audio` is not error-free for all
rates and does not map empty input to empty output in the
linear-interpolation fallback: an empty array at 48000→16000 without
scipy raises numpy's "array of sample points is empty"; a zero source
rate raises in both paths. -/
theorem resample_not_total_counterexample :
    (resample_audio false (fun a _ _ => a) [] 48000 16000 =
      Except.error "array of sample points is empty") ∧
    (resample_audio false (fun a _ _ => a) [] 0 16000 =
      Except.error "ZeroDivisionError: division by zero") ∧
    (resample_audio true (fun a _ _ => a) [] 0 16000 =
      Except.error "resample_poly: up and down must be positive") := by
  refine ⟨rfl, rfl, ?_⟩
  simp [resample_audio]

/-- In `resample_poly`, positive rates make both the up and the down
factor positive, so scipy's validation passes. -/
theorem resample_updown_pos (orig target : ℕ)
    (ho : 0 < orig) (ht : 0 < target) :
    ¬(target / Nat.gcd orig target = 0 ∨
      orig / Nat.gcd orig target = 0) := by
  have hg : 0 < Nat.gcd orig target := Nat.gcd_pos_of_pos_left target ho
  push_neg
  constructor
  · exact Nat.pos_iff_ne_zero.mp (Nat.div_pos
      (Nat.le_of_dvd ht (Nat.gcd_dvd_right orig target)) hg)
  · exact Nat.pos_iff_ne_zero.mp (Nat.div_pos
      (Nat.le_of_dvd ho (Nat.gcd_dvd_left orig target)) hg)

/-- Claim C7 (amended): with equal rates `resample_audio` is the
identity for any input; with scipy and positive rates it raises no
error, and maps empty input to empty output provided `resample_poly`
does; the linear-interpolation fallback raises no error on nonempty
input with a positive source rate, but on empty input with differing
rates it raises (numpy's `np.interp` rejects an empty sample-point
array) instead of returning an empty array, and a zero source rate
raises in either path. -/
theorem resample_totality_amended :
    (∀ (sci : Bool) (p : List ℚ → ℕ → ℕ → List ℚ) (a : List ℚ) (r : ℕ),
      resample_audio sci p a r r = Except.ok a) ∧
    (∀ (p : List ℚ → ℕ → ℕ → List ℚ) (a : List ℚ) (orig target : ℕ),
      0 < orig → 0 < target →
      ∃ out, resample_audio true p a orig target = Except.ok out) ∧
    (∀ (p : List ℚ → ℕ → ℕ → List ℚ) (orig target : ℕ),
      0 < orig → 0 < target → (∀ u d, p [] u d = []) →
      resample_audio true p [] orig target = Except.ok []) ∧
    (∀ (p : List ℚ → ℕ → ℕ → List ℚ) (a : List ℚ) (orig target : ℕ),
      0 < orig → a ≠ [] →
      ∃ out, resample_audio false p a orig target = Except.ok out) ∧
    (∀ (p : List ℚ → ℕ → ℕ → List ℚ) (orig target : ℕ),
      0 < orig → orig ≠ target →
      resample_audio false p [] orig target =
        Except.error "array of sample points is empty") := by
  refine ⟨?_, ?_, ?_, ?_, ?_⟩
  · intro sci p a r
    simp [resample_audio]
  · intro p a orig target ho ht
    by_cases h : orig = target
    · subst h
      exact ⟨a, by simp [resample_audio]⟩
    · refine ⟨p a (target / Nat.gcd orig target)
        (orig / Nat.gcd orig target), ?_⟩
      simp only [resample_audio, if_neg h]
      rw [if_pos trivial,
        if_neg (resample_updown_pos orig target ho ht)]
  · intro p orig target ho ht hp
    by_cases h : orig = target
    · subst h
      simp [resample_audio, hp]
    · simp only [resample_audio, if_neg h]
      rw [if_pos trivial,
        if_neg (resample_updown_pos orig target ho ht), hp]
  · intro p a orig target ho hne
    by_cases h : orig = target
    · subst h
      exact ⟨a, by simp [resample_audio]⟩
    · refine ⟨np_interp
        (linspace 0 ((a.length : ℚ) - 1) (a.length * target / orig)) a,
        ?_⟩
      simp only [resample_audio, if_neg h]
      rw [if_neg (by simp), if_neg (Nat.pos_iff_ne_zero.mp ho),
        if_neg (by simpa [List.isEmpty_iff] using hne)]
  · intro p orig target ho h
    simp only [resample_audio, if_neg h]
    rw [if_neg (by simp), if_neg (Nat.pos_iff_ne_zero.mp ho),
      if_pos (by simp)]

/-- Witness for the amended C7 at concrete inputs: identity at equal
rates, the scipy path at 48000→16000 on empty input, the fallback on a
nonempty input, and the fallback error on empty input. -/
theorem resample_totality_amended_witness :
    (resample_audio true (fun a _ _ => a) [1, 2] 16000 16000 =
      Except.ok [1, 2]) ∧
    (∃ out, resample_audio true (fun a _ _ => a) [] 48000 16000 =
      Except.ok out) ∧
    (resample_audio true (fun a _ _ => a) [] 48000 16000 =
      Except.ok []) ∧
    (∃ out, resample_audio false (fun a _ _ => a) [1] 48000 16000 =
      Except.ok out) ∧
    (resample_audio false (fun a _ _ => a) [] 48000 16000 =
      Except.error "array of sample points is empty") :=
  ⟨resample_totality_amended.1 true (fun a _ _ => a) [1, 2] 16000,
   resample_totality_amended.2.1 (fun a _ _ => a) [] 48000 16000
     (by norm_num) (by norm_num),
   resample_totality_amended.2.2.1 (fun a _ _ => a) 48000 16000
     (by norm_num) (by norm_num) (fun u d => rfl),
   resample_totality_amended.2.2.2.1 (fun a _ _ => a) [1] 48000 16000
     (by norm_num) (by simp),
   resample_totality_amended.2.2.2.2 (fun a _ _ => a) 48000 16000
     (by norm_num) (by norm_num)⟩

/-- Claim C9: handling a `set_config` frame updates only the
configuration fields present in the frame; every configuration field not
present — and all other server state, including the audio buffer, its
duration and the transcriber — is left unchanged, and the handler keeps
running. -/
theorem set_config_partial_update
    (create : String → Except String (Option TranslatorFn))
    (s : ServerState) (f : CommandFields)
    (h : f.typ = some "set_config") :
    (f.target_language = none →
      (handle_command create s (TextMsg.obj f)).state.target_language =
        s.target_language) ∧
    (f.source_language = none →
      (handle_command create s (TextMsg.obj f)).state.source_language =
        s.source_language) ∧
    (f.translation_provider = none →
      (handle_command create s
            (TextMsg.obj f)).state.translation_provider =
          s.translation_provider ∧
        (handle_command create s (TextMsg.obj f)).state.translator =
          s.translator) ∧
    (∀ v, f.target_language = some v →
      (handle_command create s (TextMsg.obj f)).state.target_language =
        v) ∧
    (∀ v, f.source_language = some v →
      (handle_command create s (TextMsg.obj f)).state.source_language =
        v) ∧
    (handle_command create s (TextMsg.obj f)).state.audio_buffer =
      s.audio_buffer ∧
    (handle_command create s (TextMsg.obj f)).state.buffer_duration =
      s.buffer_duration ∧
    (handle_command create s (TextMsg.obj f)).state.transcriber =
      s.transcriber ∧
    (handle_command create s (TextMsg.obj f)).keeps_running = true := by
  obtain ⟨typ, tp, tgt, src⟩ := f
  simp only [CommandFields.typ] at h
  subst h
  simp only [handle_command, CommandFields.translation_provider,
    CommandFields.target_language, CommandFields.source_language]
  simp only [if_true]
  cases tp with
  | none =>
    cases tgt <;> cases src <;> simp
  | some p =>
    by_cases hp1 : some p = s.translation_provider
    · simp only [if_pos hp1]
      cases tgt <;> cases src <;> simp
    · simp only [if_neg hp1]
      by_cases hp2 : p = ""
      · subst hp2
        simp only [if_pos rfl]
        cases tgt <;> cases src <;> simp
      · simp only [if_neg hp2]
        cases hc : create p with
        | ok t => cases tgt <;> cases src <;> simp [hc]
        | error e => cases tgt <;> cases src <;> simp [hc]

/-- Witness for C9: a `set_config` frame carrying only
`target_language = "DE"` updates exactly that field and leaves provider,
translator, source language, buffer, duration and transcriber
unchanged. -/
theorem set_config_partial_update_witness :
    ((handle_command (fun _ => Except.error "no provider")
        ⟨some "google", none, "RU", "en", [[1]], 1, ⟨some ()⟩⟩
        (TextMsg.obj ⟨some "set_config", none, some "DE",
          none⟩)).state.target_language = "DE") ∧
    ((handle_command (fun _ => Except.error "no provider")
        ⟨some "google", none, "RU", "en", [[1]], 1, ⟨some ()⟩⟩
        (TextMsg.obj ⟨some "set_config", none, some "DE",
          none⟩)).state.source_language = "en") ∧
    ((handle_command (fun _ => Except.error "no provider")
        ⟨some "google", none, "RU", "en", [[1]], 1, ⟨some ()⟩⟩
        (TextMsg.obj ⟨some "set_config", none, some "DE",
          none⟩)).state.translation_provider = some "google") ∧
    ((handle_command (fun _ => Except.error "no provider")
        ⟨some "google", none, "RU", "en", [[1]], 1, ⟨some ()⟩⟩
        (TextMsg.obj ⟨some "set_config", none, some "DE",
          none⟩)).state.audio_buffer = [[1]]) ∧
    ((handle_command (fun _ => Except.error "no provider")
        ⟨some "google", none, "RU", "en", [[1]], 1, ⟨some ()⟩⟩
        (TextMsg.obj ⟨some "set_config", none, some "DE",
          none⟩)).state.buffer_duration = 1) ∧
    ((handle_command (fun _ => Except.error "no provider")
        ⟨some "google", none, "RU", "en", [[1]], 1, ⟨some ()⟩⟩
        (TextMsg.obj ⟨some "set_config", none, some "DE",
          none⟩)).state.transcriber = ⟨some ()⟩) ∧
    ((handle_command (fun _ => Except.error "no provider")
        ⟨some "google", none, "RU", "en", [[1]], 1, ⟨some ()⟩⟩
        (TextMsg.obj ⟨some "set_config", none, some "DE",
          none⟩)).keeps_running = true) :=
  let T := set_config_partial_update
    (fun _ => Except.error "no provider")
    ⟨some "google", none, "RU", "en", [[1]], 1, ⟨some ()⟩⟩
    ⟨some "set_config", none, some "DE", none⟩ rfl
  ⟨T.2.2.2.1 "DE" rfl, T.2.1 rfl, (T.2.2.1 rfl).1,
   T.2.2.2.2.2.1, T.2.2.2.2.2.2.1, T.2.2.2.2.2.2.2.1,
   T.2.2.2.2.2.2.2.2⟩
